import Mathlib

/-!
Shallow embedding of two orchestration scripts of the nipy repository:

* `src/nipy/algorithms/registration/scripting.py` — the `space_time_realign`
  scripting wrapper around `SpaceTimeRealign`: input-file selection, the
  per-run motion-parameter tables with cross-run cumulative offsets, the
  optional writing of motion-corrected images and of a figure.

* `src/examples/labs/need_data/localizer_glm_ar.py` — the GLM example
  script: its step order, its contrast dictionary, and the masked writing
  of z-score maps.

Numeric values that are Python floats are modelled as rationals (`ℚ`);
the numeric cores (registration optimiser, GLM solver, mask computation)
are opaque external collaborators and enter as parameters.
-/

/-- Python `s.endswith(suff)`: `suff.data` is a suffix of `s.data`. -/
def strEndsWith (s suff : String) : Bool :=
  suff.data.isSuffixOf s.data

/-- The NIfTI filename test used by `space_time_realign`
(scripting.py lines 62 and 70): `f.endswith('.nii') or f.endswith('.nii.gz')`. -/
def isNiftiName (f : String) : Bool :=
  strEndsWith f ".nii" || strEndsWith f ".nii.gz"

/-- Python `f.split('.')[0]`: the characters of `f` before the first dot
(or all of `f` when it has no dot). -/
def baseName (f : String) : String :=
  ⟨f.data.takeWhile (fun c => c != '.')⟩

/-- Python `os.path.split(f)[0]`: the characters of `f` before the last
path separator (empty when `f` has none). -/
def dirName (f : String) : String :=
  ⟨((f.data.reverse.dropWhile (fun c => c != '/')).drop 1).reverse⟩

/-- A rigid-body transform as exposed by the registration library: a
translation triple and a rotation triple (`t.translation`, `t.rotation`
in `scripting.py`). -/
structure RigidTransform where
  translation : ℚ × ℚ × ℚ
  rotation : ℚ × ℚ × ℚ
deriving DecidableEq, Repr

/-- One row of `prep_arr` in `space_time_realign` (scripting.py lines
102–108): the tuple
`(trans[0]+trans_last[0], trans[1]+trans_last[1], trans[2]+trans_last[2],
  rot[0]+rot_last[0], rot[1]+rot_last[1], rot[2]+rot_last[2])`,
i.e. three translation fields followed by three rotation fields. -/
def prepRow (trans_last rot_last : ℚ × ℚ × ℚ) (t : RigidTransform) : List ℚ :=
  [t.translation.1 + trans_last.1,
   t.translation.2.1 + trans_last.2.1,
   t.translation.2.2 + trans_last.2.2,
   t.rotation.1 + rot_last.1,
   t.rotation.2.1 + rot_last.2.1,
   t.rotation.2.2 + rot_last.2.2]

/-- `prep_arr` for one run: one row per scan of the run. -/
def prepArr (trans_last rot_last : ℚ × ℚ × ℚ) (run : List RigidTransform) :
    List (List ℚ) :=
  run.map (prepRow trans_last rot_last)

/-- The per-run loop of `space_time_realign` (scripting.py lines 98–114).
For each run it builds `prep_arr` from the current `trans_last`/`rot_last`
offsets and then updates the offsets from the LAST row of `prep_arr`
exactly as the source does:
`rot_last = [prep_arr[-1][0], prep_arr[-1][1], prep_arr[-1][2]]` and
`trans_last = [prep_arr[-1][3], prep_arr[-1][4], prep_arr[-1][5]]`
(lines 113–114; note these slots are the translation fields and the
rotation fields respectively). `prep_arr[-1]` on an empty run would be a
Python `IndexError`; the embedding uses a default row there, and theorems
about runs restrict to nonempty runs. -/
def paramsArr : (ℚ × ℚ × ℚ) → (ℚ × ℚ × ℚ) → List (List RigidTransform) →
    List (List (List ℚ))
  | _, _, [] => []
  | trans_last, rot_last, run :: rest =>
    let prep := prepArr trans_last rot_last run
    let lastRow := prep.getLastD [0, 0, 0, 0, 0, 0]
    let rot_last' := (lastRow.getD 0 0, lastRow.getD 1 0, lastRow.getD 2 0)
    let trans_last' := (lastRow.getD 3 0, lastRow.getD 4 0, lastRow.getD 5 0)
    prep :: paramsArr trans_last' rot_last' rest

/-- The full parameter-table computation of `space_time_realign`: the loop
starts with `rot_last = [0,0,0]` and `trans_last = [0,0,0]`
(scripting.py lines 92–93); the result has one table per run. -/
def spaceTimeRealignParams (transforms : List (List RigidTransform)) :
    List (List (List ℚ)) :=
  paramsArr (0, 0, 0) (0, 0, 0) transforms

/-- The filesystem object the `input` argument of `space_time_realign`
names: either an existing regular file (the `os.path.isfile` branch,
scripting.py line 61) or a directory with its `os.listdir` entries
(line 68). -/
inductive FSEntry where
  | file (name : String)
  | dir (name : String) (entries : List String)

/-- The errors `space_time_realign` raises during its validation phase.
`figureWithoutMPL` models the raise at scripting.py line 58 (the source
spells the exception `RunTimeError`, an undefined name, so Python in fact
raises a `NameError` there — still an error, before any I/O);
`nonNiftiInput` is the `ValueError` of line 64. -/
inductive STRErr where
  | figureWithoutMPL
  | nonNiftiInput
deriving DecidableEq, Repr

/-- The input-selection phase of `space_time_realign` (scripting.py lines
61–71): a single file must have a NIfTI extension or a `ValueError` is
raised; for a directory, the listing is sorted (`np.sort`) and the entries
with a NIfTI extension are kept and joined to the directory path. -/
def selectFnames : FSEntry → Except STRErr (List String)
  | .file name =>
    if isNiftiName name then .ok [name] else .error .nonNiftiInput
  | .dir name entries =>
    .ok (((entries.insertionSort (· ≤ ·)).filter isNiftiName).map
      (fun f => name ++ "/" ++ f))

/-- The files `space_time_realign` writes: the per-run `_mc.par` parameter
tables (name and rows), the per-run `_mc.nii.gz` corrected images, and the
optional `mc_params.png` figure. -/
structure STROut where
  parFiles : List (String × List (List ℚ))
  mcFiles : List String
  figFile : Option String
deriving DecidableEq, Repr

/-- Shallow embedding of `space_time_realign` (scripting.py lines 27–145).
The registration estimate `reggy._within_run_transforms` is an opaque
external collaborator and enters as the `transforms` parameter (one list
of per-scan transforms per run).  The function first raises when a figure
is requested without matplotlib (lines 55–58), then selects the input
files (lines 61–71), writes one `_mc.par` table per run (lines 84–114),
writes one `_mc.nii.gz` corrected image per run exactly when `apply` is
set (lines 116–128), and writes the figure exactly when `make_figure` is
set (lines 130–145). -/
def space_time_realign (have_mpl : Bool) (input : FSEntry)
    (transforms : List (List RigidTransform)) ( apply make_figure : Bool) :
    Except STRErr STROut :=
  if !have_mpl && make_figure then .error .figureWithoutMPL
  else
    match selectFnames input with
    | .error e => .error e
    | .ok fnames =>
      let params := spaceTimeRealignParams transforms
      Except.ok
        { parFiles := (fnames.zip params).map
            (fun p => (baseName p.1 ++ "_mc.par", p.2))
          mcFiles :=
            if apply then fnames.map (fun f => baseName f ++ "_mc.nii.gz")
            else []
          figFile :=
            if make_figure then some (dirName (fnames.headD "") ++ "/mc_params.png")
            else none }

/-- The top-level actions of `localizer_glm_ar.py`, in a trace.  Each
constructor names one step of the script. -/
inductive ScriptStep where
  | fetchDataset
  | loadParadigm
  | buildDesignMatrix
  | saveDesignFigure
  | computeBrainMask
  | defineContrasts
  | loadDataset
  | fitGLM
  | estimateAndSaveContrasts
deriving DecidableEq, Repr, BEq

/-- The trace of `localizer_glm_ar.py` in source order:
`get_data_light.get_first_level_dataset()` (line 40),
`load_paradigm_from_csv_file` (line 71), `make_dmtx` (line 73), the
design-matrix figure (line 80), `compute_mask_files` (line 89), the
contrast dictionary (lines 96–120), `load(data_path)` (line 127),
`glm_fit(X, Y.T, steps=2)` (lines 128–130), and the contrast loop
(lines 138–156). -/
def localizerSteps : List ScriptStep :=
  [.fetchDataset, .loadParadigm, .buildDesignMatrix, .saveDesignFigure,
   .computeBrainMask, .defineContrasts, .loadDataset, .fitGLM,
   .estimateAndSaveContrasts]

/-- `Y = fmri_image.get_data()[mask_array]` (localizer_glm_ar.py line
128): boolean indexing keeps, in array order, exactly the time series of
the voxels where the mask is true.  `voxels` is the voxel grid in array
order, `mask` the brain mask from `compute_mask_files`, `data` the loaded
4D image as a per-voxel time series; mask and data are opaque library
results and enter as parameters. -/
def scriptY {V : Type} (voxels : List V) (mask : V → Bool)
    (data : V → List ℚ) : List (List ℚ) :=
  (voxels.filter mask).map data

/-- Elementwise sum of two contrast vectors (numpy `+` on 1-D arrays). -/
def vadd (a b : List ℚ) : List ℚ := a.zipWith (· + ·) b

/-- Elementwise difference of two contrast vectors (numpy `-`). -/
def vsub (a b : List ℚ) : List ℚ := a.zipWith (fun x y => x - y) b

/-- Elementwise negation of a contrast vector. -/
def vneg (a : List ℚ) : List ℚ := a.map (fun x => -x)

/-- Row `i` of `np.eye(d)`: the `i`-th standard basis vector of length
`d`. -/
def eyeRow (d i : ℕ) : List ℚ :=
  (List.range d).map (fun j => if j = i then 1 else 0)

/-- `contrasts['damier_H'] = np.eye(len(design_matrix.names))[0]`
(localizer_glm_ar.py lines 97–99, condition index 0); `d` is the number
of design-matrix columns. -/
def c_damier_H (d : ℕ) : List ℚ := eyeRow d 0

/-- `contrasts['damier_V']` : basis row `2` (condition index 1). -/
def c_damier_V (d : ℕ) : List ℚ := eyeRow d 2

/-- `contrasts['clicDaudio']` : basis row `4` (condition index 2). -/
def c_clicDaudio (d : ℕ) : List ℚ := eyeRow d 4

/-- `contrasts['clicGaudio']` : basis row `6` (condition index 3). -/
def c_clicGaudio (d : ℕ) : List ℚ := eyeRow d 6

/-- `contrasts['clicDvideo']` : basis row `8` (condition index 4). -/
def c_clicDvideo (d : ℕ) : List ℚ := eyeRow d 8

/-- `contrasts['clicGvideo']` : basis row `10` (condition index 5). -/
def c_clicGvideo (d : ℕ) : List ℚ := eyeRow d 10

/-- `contrasts['calculaudio']` : basis row `12` (condition index 6). -/
def c_calculaudio (d : ℕ) : List ℚ := eyeRow d 12

/-- `contrasts['calculvideo']` : basis row `14` (condition index 7). -/
def c_calculvideo (d : ℕ) : List ℚ := eyeRow d 14

/-- `contrasts['phrasevideo']` : basis row `16` (condition index 8). -/
def c_phrasevideo (d : ℕ) : List ℚ := eyeRow d 16

/-- `contrasts['phraseaudio']` : basis row `18` (condition index 9). -/
def c_phraseaudio (d : ℕ) : List ℚ := eyeRow d 18

/-- `contrasts['audio']` (localizer_glm_ar.py lines 102–103). -/
def c_audio (d : ℕ) : List ℚ :=
  vadd (vadd (vadd (c_clicDaudio d) (c_clicGaudio d)) (c_calculaudio d))
    (c_phraseaudio d)

/-- `contrasts['video']` (lines 104–105). -/
def c_video (d : ℕ) : List ℚ :=
  vadd (vadd (vadd (c_clicDvideo d) (c_clicGvideo d)) (c_calculvideo d))
    (c_phrasevideo d)

/-- `contrasts['left']` (line 106). -/
def c_left (d : ℕ) : List ℚ := vadd (c_clicGaudio d) (c_clicGvideo d)

/-- `contrasts['right']` (line 107). -/
def c_right (d : ℕ) : List ℚ := vadd (c_clicDaudio d) (c_clicDvideo d)

/-- `contrasts['H-V']` (line 110). -/
def c_H_V (d : ℕ) : List ℚ := vsub (c_damier_H d) (c_damier_V d)

/-- `contrasts['V-H']` (line 111). -/
def c_V_H (d : ℕ) : List ℚ := vsub (c_damier_V d) (c_damier_H d)

/-- `contrasts['left-right']` (line 112). -/
def c_left_right (d : ℕ) : List ℚ := vsub (c_left d) (c_right d)

/-- `contrasts['right-left']` (line 113). -/
def c_right_left (d : ℕ) : List ℚ := vsub (c_right d) (c_left d)

/-- `contrasts['audio-video']` (line 114). -/
def c_audio_video (d : ℕ) : List ℚ := vsub (c_audio d) (c_video d)

/-- `contrasts['video-audio']` (line 115). -/
def c_video_audio (d : ℕ) : List ℚ := vsub (c_video d) (c_audio d)

/-- The keys of the `contrasts` dictionary of `localizer_glm_ar.py`, in
insertion order: the ten condition names (lines 96–99) followed by the
fifteen derived contrasts (lines 102–120).  All twenty-five keys are
distinct, so the dictionary has exactly these entries. -/
def contrastNames : List String :=
  ["damier_H", "damier_V", "clicDaudio", "clicGaudio", "clicDvideo",
   "clicGvideo", "calculaudio", "calculvideo", "phrasevideo",
   "phraseaudio",
   "audio", "video", "left", "right", "computation", "sentences",
   "H-V", "V-H", "left-right", "right-left", "audio-video", "video-audio",
   "computation-sentences", "reading-visual", "effects_of_interest"]

/-- The files of the contrast loop of `localizer_glm_ar.py` (lines
138–156), relative to the output directory `write_dir`: for each contrast
key, `save(contrast_image, '%s_z_map.nii' % contrast_id)` and
`pl.savefig('%s_z_map.png' % contrast_id)`. -/
def contrastOutputFiles : List String :=
  contrastNames.flatMap (fun n => [n ++ "_z_map.nii", n ++ "_z_map.png"])

/-- The z-map array assembly of the contrast loop (localizer_glm_ar.py
lines 142–143): `write_array = mask_array.astype(np.float)` makes a float
array that is `1.0` on mask voxels and `0.0` elsewhere, and
`write_array[mask_array] = z` then overwrites the mask voxels, in array
order, with the z-scores.  The mask is flattened to a `List Bool` in
array order and `z` is the z-score vector (one value per mask voxel; on a
shorter `z` numpy raises, and theorems assume the lengths agree). -/
def writeArray : List Bool → List ℚ → List ℚ
  | [], _ => []
  | true :: bs, q :: z => q :: writeArray bs z
  | true :: bs, [] => 1 :: writeArray bs []
  | false :: bs, z => 0 :: writeArray bs z

/-- The shape of one run's parameter table: one row per scan of the run,
each row built by `prepRow` from some pair of offsets (so six fields, the
three translation fields first, the three rotation fields last). -/
def runTableShape (run : List RigidTransform) (table : List (List ℚ)) : Prop :=
  table.length = run.length ∧
  (∃ tl rl, table = prepArr tl rl run) ∧
  ∀ row ∈ table, row.length = 6

/-- C1: the claim says that each later run's rows equal that run's raw
translations plus the previous run's final cumulative translations and
raw rotations plus the previous run's final cumulative rotations.  The
code instead assigns `rot_last` from the translation slots and
`trans_last` from the rotation slots of the last row (scripting.py lines
113–114), so on the two runs `[(trans (1,2,3), rot (4,5,6))]` and
`[(trans (10,20,30), rot (40,50,60))]` the second run's row is
`[14,25,36,41,52,63]` (translations offset by the first run's final
rotations and vice versa) and not the claimed `[11,22,33,44,55,66]`. -/
theorem spaceTimeRealignParams_swaps_offsets :
    spaceTimeRealignParams
        [[⟨(1, 2, 3), (4, 5, 6)⟩], [⟨(10, 20, 30), (40, 50, 60)⟩]] =
      [[[1, 2, 3, 4, 5, 6]], [[14, 25, 36, 41, 52, 63]]] ∧
    spaceTimeRealignParams
        [[⟨(1, 2, 3), (4, 5, 6)⟩], [⟨(10, 20, 30), (40, 50, 60)⟩]] ≠
      [[[1, 2, 3, 4, 5, 6]], [[11, 22, 33, 44, 55, 66]]] := by
  constructor
  · norm_num [spaceTimeRealignParams, paramsArr, prepArr, prepRow]
  · norm_num [spaceTimeRealignParams, paramsArr, prepArr, prepRow]

/-- C2: a single input file whose name does not end in `.nii` or
`.nii.gz` is rejected: `space_time_realign` returns an error (the
`ValueError` of scripting.py line 64, or the figure error if that fires
first) and therefore writes no output files. -/
theorem spaceTimeRealign_rejects_nonNifti (name : String) (hm : Bool)
    (transforms : List (List RigidTransform)) (ap mf : Bool)
    (h : isNiftiName name = false) :
    ∃ e, space_time_realign hm (.file name) transforms ap mf =
      Except.error e := by
  by_cases hc : (!hm && mf) = true
  · exact ⟨.figureWithoutMPL, by simp [space_time_realign, hc]⟩
  · exact ⟨.nonNiftiInput, by simp [space_time_realign, selectFnames, h, hc]⟩

/-- Witness for C2 at the concrete filename `file.txt`. -/
theorem spaceTimeRealign_rejects_nonNifti_witness :
    isNiftiName "file.txt" = false ∧
    ∃ e, space_time_realign true (.file "file.txt") [] false false =
      Except.error e :=
  ⟨by decide,
   spaceTimeRealign_rejects_nonNifti "file.txt" true [] false false (by decide)⟩

/-- C3: when matplotlib is unavailable and `make_figure` is true,
`space_time_realign` raises immediately — for every input and every
registration result the outcome is the same error, before any input is
read or output written (the source spells the exception `RunTimeError`,
an undefined name, so Python raises a `NameError` at that line; an error
is raised there either way). -/
theorem spaceTimeRealign_figure_needs_mpl (input : FSEntry)
    (transforms : List (List RigidTransform)) (ap : Bool) :
    space_time_realign false input transforms ap true =
      Except.error .figureWithoutMPL := rfl

/-- C4: every run's parameter table has one row per scan and every row
has exactly six fields, the three translation fields first and the three
rotation fields last (the `prep_arr` tuples of scripting.py lines
102–108 and the recarray dtype `t1,t2,t3,r1,r2,r3` of lines 84–85).  The
hypothesis keeps to the source's domain: on an empty run Python would
raise an `IndexError` at `prep_arr[-1]`. -/
theorem spaceTimeRealignParams_table_shape
    (transforms : List (List RigidTransform)) (_h : [] ∉ transforms) :
    List.Forall₂ runTableShape transforms
      (spaceTimeRealignParams transforms) := by
  suffices hgen : ∀ (ts : List (List RigidTransform)) (tl rl : ℚ × ℚ × ℚ),
      List.Forall₂ runTableShape ts (paramsArr tl rl ts) from
    hgen transforms (0, 0, 0) (0, 0, 0)
  intro ts
  induction ts with
  | nil => intro tl rl; exact List.Forall₂.nil
  | cons run rest ih =>
    intro tl rl
    rw [paramsArr]
    refine List.Forall₂.cons ⟨?_, ⟨tl, rl, rfl⟩, ?_⟩ (ih _ _)
    · simp [prepArr]
    · intro row hrow
      simp only [prepArr, List.mem_map] at hrow
      obtain ⟨t, _, rfl⟩ := hrow
      simp [prepRow]

/-- Witness for C4 at a concrete one-run, one-scan input. -/
theorem spaceTimeRealignParams_table_shape_witness :
    ([] ∉ [[RigidTransform.mk (1, 2, 3) (4, 5, 6)]]) ∧
    List.Forall₂ runTableShape [[RigidTransform.mk (1, 2, 3) (4, 5, 6)]]
      (spaceTimeRealignParams [[RigidTransform.mk (1, 2, 3) (4, 5, 6)]]) :=
  ⟨by decide,
   spaceTimeRealignParams_table_shape [[RigidTransform.mk (1, 2, 3) (4, 5, 6)]]
     (by decide)⟩

/-- C5: on a successful call, the motion-corrected `_mc.nii.gz` files are
written for each input run exactly when `apply` is true, and are the only
writes besides the per-run `_mc.par` tables and the optional figure (the
`STROut` record lists every file the function writes). -/
theorem spaceTimeRealign_apply_controls_output (hm : Bool) (input : FSEntry)
    (transforms : List (List RigidTransform)) (ap mf : Bool) (out : STROut)
    (h : space_time_realign hm input transforms ap mf = Except.ok out) :
    ∃ fnames, selectFnames input = Except.ok fnames ∧
      out.mcFiles =
        (if ap then fnames.map (fun f => baseName f ++ "_mc.nii.gz")
         else []) ∧
      out.parFiles = (fnames.zip (spaceTimeRealignParams transforms)).map
        (fun p => (baseName p.1 ++ "_mc.par", p.2)) := by
  unfold space_time_realign at h
  by_cases hc : (!hm && mf) = true
  · rw [if_pos hc] at h
    exact absurd h (by simp)
  · rw [if_neg hc] at h
    cases hsel : selectFnames input with
    | error e => rw [hsel] at h; simp at h
    | ok fnames =>
      rw [hsel] at h
      simp only [Except.ok.injEq] at h
      exact ⟨fnames, rfl, by rw [← h], by rw [← h]⟩

/-- Witness for C5: a single `.nii` file with `apply` set (and an empty
registration result, so zero parameter tables). -/
theorem spaceTimeRealign_apply_controls_output_witness :
    ∃ fnames, selectFnames (.file "a.nii") = Except.ok fnames ∧
      (STROut.mk [] ["a_mc.nii.gz"] none).mcFiles =
        (if true then fnames.map (fun f => baseName f ++ "_mc.nii.gz")
         else []) ∧
      (STROut.mk [] ["a_mc.nii.gz"] none).parFiles =
        (fnames.zip (spaceTimeRealignParams [])).map
          (fun p => (baseName p.1 ++ "_mc.par", p.2)) :=
  spaceTimeRealign_apply_controls_output true (.file "a.nii")
    [] true false _ (by rfl)

/-- C6 counterexample: the claim orders the steps as load dataset, build
design matrix, compute mask, fit GLM, estimate/save contrasts; but in
`localizer_glm_ar.py` the 4D dataset is loaded (`load(data_path)`, line
127) only after the design matrix (line 73) and the mask (line 89), so
the claimed chain fails at its first link. -/
theorem localizer_claimed_step_order_false :
    ¬ (localizerSteps.indexOf .loadDataset <
         localizerSteps.indexOf .buildDesignMatrix ∧
       localizerSteps.indexOf .buildDesignMatrix <
         localizerSteps.indexOf .computeBrainMask ∧
       localizerSteps.indexOf .computeBrainMask <
         localizerSteps.indexOf .fitGLM ∧
       localizerSteps.indexOf .fitGLM <
         localizerSteps.indexOf .estimateAndSaveContrasts) := by
  decide

/-- C6 amended: the script's actual order is design matrix, then brain
mask, then dataset load, then GLM fit, then contrast estimation and
saving; and the GLM input `Y = fmri_image.get_data()[mask_array]` (line
128) holds exactly the time series of the voxels inside the computed
mask, in array order. -/
theorem localizer_step_order_and_masked_fit {V : Type} (voxels : List V)
    (mask : V → Bool) (data : V → List ℚ) :
    (localizerSteps.indexOf .buildDesignMatrix <
       localizerSteps.indexOf .computeBrainMask ∧
     localizerSteps.indexOf .computeBrainMask <
       localizerSteps.indexOf .loadDataset ∧
     localizerSteps.indexOf .loadDataset <
       localizerSteps.indexOf .fitGLM ∧
     localizerSteps.indexOf .fitGLM <
       localizerSteps.indexOf .estimateAndSaveContrasts) ∧
    (∀ y, y ∈ scriptY voxels mask data ↔
      ∃ v ∈ voxels, mask v = true ∧ data v = y) := by
  refine ⟨by decide, fun y => ?_⟩
  simp only [scriptY, List.mem_map, List.mem_filter]
  constructor
  · rintro ⟨v, ⟨hv, hm⟩, hd⟩
    exact ⟨v, hv, hm, hd⟩
  · rintro ⟨v, hv, hm, hd⟩
    exact ⟨v, ⟨hv, hm⟩, hd⟩

/-- C7: for every key of the contrast dictionary, exactly one
`<name>_z_map.nii` z-score map and exactly one `<name>_z_map.png`
rendering appear among the files written by the contrast loop of
`localizer_glm_ar.py` (lines 138–156). -/
theorem contrast_loop_writes_nii_and_png (n : String)
    (h : n ∈ contrastNames) :
    contrastOutputFiles.count (n ++ "_z_map.nii") = 1 ∧
    contrastOutputFiles.count (n ++ "_z_map.png") = 1 := by
  fin_cases h <;> exact ⟨by decide, by decide⟩

/-- Witness for C7 at the contrast name `audio`. -/
theorem contrast_loop_writes_nii_and_png_witness :
    "audio" ∈ contrastNames ∧
    (contrastOutputFiles.count ("audio" ++ "_z_map.nii") = 1 ∧
     contrastOutputFiles.count ("audio" ++ "_z_map.png") = 1) :=
  ⟨by decide, contrast_loop_writes_nii_and_png "audio" (by decide)⟩

/-- Elementwise antisymmetry of the vector difference: `a - b` is the
negation of `b - a`, componentwise. -/
theorem vsub_antisymm (a b : List ℚ) : vsub a b = vneg (vsub b a) := by
  induction a generalizing b with
  | nil => cases b <;> simp [vsub, vneg]
  | cons x xs ih =>
    cases b with
    | nil => simp [vsub, vneg]
    | cons y ys =>
      have hih := ih ys
      simp only [vsub, vneg] at hih
      simp [vsub, vneg, neg_sub, hih]

/-- C8: each oppositely-named difference contrast of
`localizer_glm_ar.py` (lines 110–115) is the elementwise negation of its
counterpart, whatever the number `d` of design-matrix columns. -/
theorem contrasts_negation_pairs (d : ℕ) :
    c_left_right d = vneg (c_right_left d) ∧
    c_H_V d = vneg (c_V_H d) ∧
    c_audio_video d = vneg (c_video_audio d) :=
  ⟨vsub_antisymm _ _, vsub_antisymm _ _, vsub_antisymm _ _⟩

/-- C9: for a directory input, `space_time_realign` processes exactly the
directory entries with a `.nii` or `.nii.gz` extension, in ascending
lexicographic order (`np.sort` then the extension filter, scripting.py
lines 68–71), joined to the directory path; entries with other
extensions are skipped without any error being raised. -/
theorem spaceTimeRealign_dir_selection (d : String) (entries : List String) :
    ∃ fs : List String,
      selectFnames (.dir d entries) =
        Except.ok (fs.map (fun f => d ++ "/" ++ f)) ∧
      fs.Perm (entries.filter isNiftiName) ∧
      List.Sorted (· ≤ ·) fs ∧
      ∀ f ∈ fs, isNiftiName f = true := by
  refine ⟨(entries.insertionSort (· ≤ ·)).filter isNiftiName, rfl, ?_, ?_, ?_⟩
  · exact (List.perm_insertionSort _ entries).filter _
  · exact List.Pairwise.sublist (List.filter_sublist _)
      (List.sorted_insertionSort _ entries)
  · intro f hf
    exact (List.mem_filter.mp hf).2

/-- C10: in every saved z-map array, voxels outside the mask hold `0`,
and the z-scores land exactly on the mask voxels, in order: the values of
`writeArray mask z` at mask positions, read off in array order, are
precisely `z`.  The hypothesis matches numpy's requirement that the
assigned vector have one value per mask voxel. -/
theorem writeArray_zero_outside_mask (mask : List Bool) (z : List ℚ)
    (h : z.length = mask.count true) :
    (writeArray mask z).length = mask.length ∧
    (∀ i, mask.getD i false = false → (writeArray mask z).getD i 0 = 0) ∧
    ((mask.zip (writeArray mask z)).filter (fun p => p.1)).map Prod.snd
      = z := by
  induction mask generalizing z with
  | nil =>
    cases z with
    | nil => simp [writeArray]
    | cons q z => simp at h
  | cons b bs ih =>
    cases b with
    | false =>
      obtain ⟨h1, h2, h3⟩ := ih z (by simpa using h)
      refine ⟨by simpa [writeArray] using h1, ?_, by simpa [writeArray] using h3⟩
      intro i hi
      cases i with
      | zero => simp [writeArray]
      | succ j =>
        simp only [writeArray, List.getD_cons_succ] at hi ⊢
        exact h2 j hi
    | true =>
      cases z with
      | nil => simp at h
      | cons q z =>
        obtain ⟨h1, h2, h3⟩ := ih z (by simpa using h)
        refine ⟨by simpa [writeArray] using h1, ?_, by simpa [writeArray] using h3⟩
        intro i hi
        cases i with
        | zero => simp at hi
        | succ j =>
          simp only [writeArray, List.getD_cons_succ] at hi ⊢
          exact h2 j hi

/-- Witness for C10 at the mask `[true, false, true]` with z-scores
`[5, 7]`. -/
theorem writeArray_zero_outside_mask_witness :
    ([(5 : ℚ), 7].length = [true, false, true].count true) ∧
    ((writeArray [true, false, true] [5, 7]).length =
        [true, false, true].length ∧
      (∀ i, [true, false, true].getD i false = false →
        (writeArray [true, false, true] [(5 : ℚ), 7]).getD i 0 = 0) ∧
      (([true, false, true].zip
          (writeArray [true, false, true] [(5 : ℚ), 7])).filter
            (fun p => p.1)).map Prod.snd = [5, 7]) :=
  ⟨by decide, writeArray_zero_outside_mask [true, false, true] [5, 7]
    (by decide)⟩
